import Mathlib

/-!
Verification of the WhatsApp Catalog FDW adapter (src/src/lib.rs).

The adapter exposes a remote WhatsApp catalog as rows to a Postgres FDW
host.  We shallowly embed the scan lifecycle state machine and the
per-column field decoder.  The HTTP transport and JSON parsing are host
capabilities outside the adapter; `begin_scan` is therefore modelled from
the parsed response body (a JSON value) onward, exactly as the Rust code
handles it after `serde_json::from_str` succeeds.
-/

namespace WhatsAppFdw

/-- Model of a parsed JSON document (serde_json Value).  Objects are
association lists keyed by strings; lookups take the first binding, which
matches the in-memory map where keys are unique.  Numbers are modelled as
integers: the source only ever extracts numbers through as_i64, and a
non-integral number behaves exactly like any other type mismatch (decodes
to the null cell), so non-integral numbers are not distinguished. -/
inductive Json where
  | null
  | bool (b : Bool)
  | num (n : Int)
  | str (s : String)
  | arr (elems : List Json)
  | obj (fields : List (String × Json))

/-- serde_json Value::get with a string key. -/
def Json.get : Json → String → Option Json
  | .obj fields, key => List.lookup key fields
  | _, _ => none

/-- serde_json Value::as_str. -/
def Json.as_str : Json → Option String
  | .str s => some s
  | _ => none

/-- serde_json Value::as_bool. -/
def Json.as_bool : Json → Option Bool
  | .bool b => some b
  | _ => none

/-- serde_json Value::as_i64: an integer is extracted only when it fits in
a signed 64-bit machine word. -/
def Json.as_i64 : Json → Option Int
  | .num n => if -(2 ^ 63) ≤ n ∧ n ≤ 2 ^ 63 - 1 then some n else none
  | _ => none

/-- serde_json Value::as_array. -/
def Json.as_array : Json → Option (List Json)
  | .arr elems => some elems
  | _ => none

/-- The host cell type (supabase wrappers Cell), restricted to the variants
the adapter produces.  A nullable cell is an Option Cell, mirroring the
Option of the Rust code where None is pushed as the null cell. -/
inductive Cell where
  | string (s : String)
  | bool (b : Bool)
  | i64 (n : Int)

/-- The adapter instance (struct ExampleFdw): connection options, the Row
Buffer of raw records, and the scan cursor. -/
structure ExampleFdw where
  base_url : String
  phone_number : String
  from_number : String
  api_key : String
  src_rows : List Json
  src_idx : Nat

/-- OptionsType.require_or: look the key up in the server options, falling
back to the given default. -/
def require_or (opts : List (String × String)) (key dflt : String) : String :=
  (List.lookup key opts).getD dflt

/-- init: fetch the three required options (with empty-string fallback),
reject any empty one naming it, then record the fixed base URL.  The
instance starts from Default::default(), so the buffer is empty and the
cursor is 0. -/
def init (opts : List (String × String)) : Except String ExampleFdw :=
  let pn := require_or opts "phone_number" ""
  let fn := require_or opts "from_number" ""
  let ak := require_or opts "api_key" ""
  if pn = "" then
    .error "Missing required option: phone_number"
  else if fn = "" then
    .error "Missing required option: from_number"
  else if ak = "" then
    .error "Missing required option: api_key"
  else
    .ok { base_url := "https://api.p.2chat.io/open/whatsapp/catalog/products"
          phone_number := pn
          from_number := fn
          api_key := ak
          src_rows := []
          src_idx := 0 }

/-- begin_scan, from the parsed response JSON onward (the HTTP request and
JSON parse are host-external; their failures abort before this logic runs):
check the boolean success flag, extract the products array into the Row
Buffer.  Note that src_idx is not touched. -/
def begin_scan (s : ExampleFdw) (resp_json : Json) : Except String ExampleFdw :=
  if ((resp_json.get "success").bind Json.as_bool).getD false = false then
    .error "API request was not successful"
  else
    match resp_json.get "products" with
    | none => .error "Cannot get \x27products\x27 from response"
    | some p =>
      match p.as_array with
      | none => .error "\x27products\x27 is not an array"
      | some arr => .ok { s with src_rows := arr }

/-- String-typed column: src_row.get(k).and_then(as_str).map(Cell::String). -/
def strCell (src_row : Json) (key : String) : Option Cell :=
  ((src_row.get key).bind Json.as_str).map Cell.string

/-- Boolean-typed column: src_row.get(k).and_then(as_bool).map(Cell::Bool). -/
def boolCell (src_row : Json) (key : String) : Option Cell :=
  ((src_row.get key).bind Json.as_bool).map Cell.bool

/-- Integer-typed column: src_row.get(k).and_then(as_i64).map(Cell::I64). -/
def i64Cell (src_row : Json) (key : String) : Option Cell :=
  ((src_row.get key).bind Json.as_i64).map Cell.i64

/-- The derived images column: when the images field is an array, collect
every sub-object url string and join them with a literal comma-space
separator; otherwise the cell is null. -/
def imagesCell (src_row : Json) : Option Cell :=
  match (src_row.get "images").bind Json.as_array with
  | some images =>
    some (Cell.string (String.intercalate ", "
      (images.filterMap (fun img => (img.get "url").bind Json.as_str))))
  | none => none

/-- The per-column match inside iter_scan (the Field Decoder): a supported
column decodes to a nullable cell, an unknown column is a hard error naming
the column. -/
def decodeColumn (src_row : Json) (col : String) : Except String (Option Cell) :=
  match col with
  | "id" => .ok (strCell src_row "id")
  | "retailer_id" => .ok (strCell src_row "retailer_id")
  | "name" => .ok (strCell src_row "name")
  | "description" => .ok (strCell src_row "description")
  | "url" => .ok (strCell src_row "url")
  | "currency" => .ok (strCell src_row "currency")
  | "price" => .ok (strCell src_row "price")
  | "is_hidden" => .ok (boolCell src_row "is_hidden")
  | "max_available" => .ok (i64Cell src_row "max_available")
  | "availability" => .ok (strCell src_row "availability")
  | "checkmark" => .ok (boolCell src_row "checkmark")
  | "whatsapp_product_can_appeal" => .ok (boolCell src_row "whatsapp_product_can_appeal")
  | "is_approved" => .ok (boolCell src_row "is_approved")
  | "approval_status" => .ok (strCell src_row "approval_status")
  | "signedShimmedUrl" => .ok (strCell src_row "signedShimmedUrl")
  | "images" => .ok (imagesCell src_row)
  | _ => .error ("Column \x27" ++ col ++ "\x27 is not supported by the WhatsApp Catalog FDW")

/-- The fixed set of column names the decoder supports, in source order. -/
def supportedCols : List String :=
  ["id", "retailer_id", "name", "description", "url", "currency", "price",
   "is_hidden", "max_available", "availability", "checkmark",
   "whatsapp_product_can_appeal", "is_approved", "approval_status",
   "signedShimmedUrl", "images"]

/-- The column loop of iter_scan: decode each requested column in order and
push its cell onto the host row (the accumulator).  On the first unsupported
column the loop stops with the error, leaving the cells already pushed in
the host row. -/
def scanCols (src_row : Json) : List String → List (Option Cell) →
    List (Option Cell) × Option String
  | [], pushed => (pushed, none)
  | col :: rest, pushed =>
    match decodeColumn src_row col with
    | .ok cell => scanCols src_row rest (pushed ++ [cell])
    | .error e => (pushed, some e)

/-- iter_scan: returns the host result (Ok None at exhaustion, Ok (Some 0)
after a row, or the error), the adapter state after the call, and the cells
pushed to the host row during the call. -/
def iter_scan (s : ExampleFdw) (cols : List String) :
    Except String (Option Nat) × ExampleFdw × List (Option Cell) :=
  if s.src_rows.length ≤ s.src_idx then
    (.ok none, s, [])
  else
    match scanCols (s.src_rows.getD s.src_idx Json.null) cols [] with
    | (pushed, some e) => (.error e, s, pushed)
    | (pushed, none) => (.ok (some 0), { s with src_idx := s.src_idx + 1 }, pushed)

/-- re_scan: always rejected. -/
def re_scan (_s : ExampleFdw) : Except String Unit :=
  .error "Re-scan on foreign table is not supported"

/-- end_scan: clear the Row Buffer and reset the cursor; always succeeds. -/
def end_scan (s : ExampleFdw) : Except String ExampleFdw :=
  .ok { s with src_rows := [], src_idx := 0 }

/-- The cell a supported column decodes to (the error case never happens for
supported columns; it is mapped to the null cell only to make this total). -/
def decodeCell (src_row : Json) (col : String) : Option Cell :=
  match decodeColumn src_row col with
  | .ok cell => cell
  | .error _ => none

/-- The host driver loop: call iter_scan until it reports no more rows (or
fails), collecting the pushed rows; fuel bounds the number of calls. -/
def emitAll (cols : List String) : ExampleFdw → Nat → List (List (Option Cell)) × ExampleFdw
  | s, 0 => ([], s)
  | s, n + 1 =>
    match iter_scan s cols with
    | (.ok (some _), s1, pushed) =>
      let rest := emitAll cols s1 n
      (pushed :: rest.1, rest.2)
    | (_, s1, _) => ([], s1)

/-! ## Concrete states used by witnesses and counterexamples -/

/-- A complete server-option list. -/
def opts₀ : List (String × String) :=
  [("phone_number", "p"), ("from_number", "f"), ("api_key", "k")]

/-- The adapter state right after a successful init with opts₀. -/
def s₀ : ExampleFdw :=
  { base_url := "https://api.p.2chat.io/open/whatsapp/catalog/products"
    phone_number := "p", from_number := "f", api_key := "k"
    src_rows := [], src_idx := 0 }

/-- A successful response whose products array holds one empty object. -/
def respOne : Json :=
  Json.obj [("success", Json.bool true), ("products", Json.arr [Json.obj []])]

/-- A successful response with an empty products array. -/
def respEmpty : Json :=
  Json.obj [("success", Json.bool true), ("products", Json.arr [])]

/-- A product record carrying only an id. -/
def recP1 : Json := Json.obj [("id", Json.str "p1")]

/-- A successful response whose products array holds recP1. -/
def respP1 : Json :=
  Json.obj [("success", Json.bool true), ("products", Json.arr [recP1])]

/-- s₀ after begin_scan with respOne: one buffered record, cursor 0. -/
def s₁ : ExampleFdw := { s₀ with src_rows := [Json.obj []] }

/-- s₁ after one successful iter_scan: cursor 1. -/
def s₂ : ExampleFdw := { s₁ with src_idx := 1 }

/-- s₂ after begin_scan with respEmpty: empty buffer, cursor still 1. -/
def s₃ : ExampleFdw := { s₂ with src_rows := [] }

/-- s₂ after begin_scan with respP1: one buffered record, cursor still 1. -/
def s₄ : ExampleFdw := { s₂ with src_rows := [recP1] }

/-- A scanning state holding the single record recP1 at cursor 0. -/
def w2 : ExampleFdw := { s₀ with src_rows := [recP1] }

/-- A record whose images array holds two url sub-objects. -/
def recImgs : Json :=
  Json.obj [("images",
    Json.arr [Json.obj [("url", Json.str "a")], Json.obj [("url", Json.str "b")]])]

/-! ## Helper lemmas -/

theorem as_array_eq_some : ∀ {j : Json} {elems : List Json},
    j.as_array = some elems → j = Json.arr elems := by
  intro j elems h
  cases j <;> simp [Json.as_array] at h
  rw [h]

theorem getD_lt_eq_getElem (l : List Json) (n : Nat) (h : n < l.length) :
    l.getD n Json.null = l[n] := by
  simp [List.getD_eq_getElem?_getD, List.getElem?_eq_getElem h]

/-- What a successful begin_scan does to the state: the buffer is replaced
by the products array and nothing else changes (in particular src_idx). -/
theorem begin_scan_ok_state {s s' : ExampleFdw} {resp : Json}
    (h : begin_scan s resp = .ok s') :
    ∃ arr, resp.get "products" = some (Json.arr arr) ∧
      s' = { s with src_rows := arr } := by
  unfold begin_scan at h
  split at h
  · exact absurd h (by simp)
  · split at h
    · exact absurd h (by simp)
    · rename_i p hp
      split at h
      · exact absurd h (by simp)
      · rename_i arr harr
        injection h with h2
        exact ⟨arr, by rw [hp, as_array_eq_some harr], h2.symm⟩

/-- A successful init yields an empty buffer with the cursor at 0. -/
theorem init_ok_state {opts : List (String × String)} {s : ExampleFdw}
    (h : init opts = .ok s) : s.src_rows = [] ∧ s.src_idx = 0 := by
  simp only [init] at h
  split at h
  · exact absurd h (by simp)
  · split at h
    · exact absurd h (by simp)
    · split at h
      · exact absurd h (by simp)
      · injection h with h2
        rw [← h2]
        exact ⟨rfl, rfl⟩

/-- Every supported column decodes without error, whatever the record. -/
theorem decode_total_of_supported (r : Json) (c : String) (h : c ∈ supportedCols) :
    ∃ cell, decodeColumn r c = .ok cell := by
  simp only [supportedCols, List.mem_cons, List.not_mem_nil, or_false] at h
  rcases h with rfl | rfl | rfl | rfl | rfl | rfl | rfl | rfl | rfl | rfl | rfl | rfl |
    rfl | rfl | rfl | rfl
  all_goals exact ⟨_, rfl⟩

/-- When every requested column decodes, the column loop pushes exactly one
cell per column, in request order, after the cells already pushed. -/
theorem scanCols_ok (r : Json) :
    ∀ (cols : List String) (acc : List (Option Cell)),
      (∀ c ∈ cols, ∃ cell, decodeColumn r c = .ok cell) →
      scanCols r cols acc = (acc ++ cols.map (decodeCell r), none) := by
  intro cols
  induction cols with
  | nil => intro acc _; simp [scanCols]
  | cons c cs ih =>
    intro acc h
    obtain ⟨cell, hc⟩ := h c (List.mem_cons_self c cs)
    have hcell : decodeCell r c = cell := by simp [decodeCell, hc]
    simp only [scanCols, hc]
    rw [ih (acc ++ [cell]) (fun x hx => h x (List.mem_cons_of_mem c hx))]
    simp [hcell]

/-- A column loop that finishes without error pushed one cell per column. -/
theorem scanCols_none_length (r : Json) :
    ∀ (cols : List String) (acc pushed : List (Option Cell)),
      scanCols r cols acc = (pushed, none) →
      pushed.length = acc.length + cols.length := by
  intro cols
  induction cols with
  | nil =>
    intro acc pushed h
    simp only [scanCols, Prod.mk.injEq] at h
    simp [← h.1]
  | cons c cs ih =>
    intro acc pushed h
    simp only [scanCols] at h
    rcases hd : decodeColumn r c with e | cell <;> rw [hd] at h
    · exact absurd h (by simp)
    · have := ih (acc ++ [cell]) pushed h
      simp only [List.length_append, List.length_cons]
      simp at this
      omega

/-- A column loop that stops with an error pushed strictly fewer cells than
there are requested columns (only the columns before the bad one). -/
theorem scanCols_some_length (r : Json) :
    ∀ (cols : List String) (acc pushed : List (Option Cell)) (e : String),
      scanCols r cols acc = (pushed, some e) →
      acc.length ≤ pushed.length ∧ pushed.length < acc.length + cols.length := by
  intro cols
  induction cols with
  | nil =>
    intro acc pushed e h
    exact absurd h (by simp [scanCols])
  | cons c cs ih =>
    intro acc pushed e h
    simp only [scanCols] at h
    rcases hd : decodeColumn r c with e2 | cell <;> rw [hd] at h
    · simp only [Prod.mk.injEq] at h
      rw [← h.1]
      simp only [List.length_cons]
      omega
    · have := ih (acc ++ [cell]) pushed e h
      simp only [List.length_cons]
      simp at this
      omega

/-- At or past the end of the buffer, iter_scan reports no more rows and
leaves the state untouched. -/
theorem iter_scan_exhausted {s : ExampleFdw} (cols : List String)
    (h : s.src_rows.length ≤ s.src_idx) :
    iter_scan s cols = (.ok none, s, []) := by
  simp [iter_scan, h]

/-- iter_scan either leaves the state unchanged or advances the cursor by
one from strictly inside the buffer. -/
theorem iter_scan_state (s : ExampleFdw) (cols : List String) :
    (iter_scan s cols).2.1 = s ∨
      ((iter_scan s cols).2.1 = { s with src_idx := s.src_idx + 1 } ∧
        s.src_idx < s.src_rows.length) := by
  unfold iter_scan
  split
  · left; rfl
  · rename_i hlt
    rcases hsc : scanCols (s.src_rows.getD s.src_idx Json.null) cols [] with ⟨pushed, e⟩
    cases e with
    | none => right; exact ⟨rfl, by omega⟩
    | some e2 => left; rfl

/-- A failing iter_scan returns the state it was called with. -/
theorem iter_scan_error_state {s : ExampleFdw} {cols : List String} {e : String}
    {s' : ExampleFdw} {pushed : List (Option Cell)}
    (h : iter_scan s cols = (.error e, s', pushed)) : s' = s := by
  unfold iter_scan at h
  split at h
  · exact absurd h (by simp)
  · rcases hsc : scanCols (s.src_rows.getD s.src_idx Json.null) cols [] with ⟨p, e2⟩
    rw [hsc] at h
    cases e2 with
    | none => exact absurd h (by simp)
    | some e3 =>
      simp only [Prod.mk.injEq] at h
      exact h.2.1.symm

/-- Strictly inside the buffer with only supported columns, iter_scan emits
the decoded row for the record at the cursor and advances the cursor. -/
theorem iter_scan_emits {s : ExampleFdw} (cols : List String)
    (hlt : s.src_idx < s.src_rows.length)
    (hc : ∀ c ∈ cols, c ∈ supportedCols) :
    iter_scan s cols =
      (.ok (some 0), { s with src_idx := s.src_idx + 1 },
        cols.map (decodeCell (s.src_rows.getD s.src_idx Json.null))) := by
  unfold iter_scan
  rw [if_neg (by omega)]
  rw [scanCols_ok _ cols [] (fun c hcc => decode_total_of_supported _ c (hc c hcc))]
  simp

/-- Driving iter_scan with enough fuel from anywhere inside the buffer
emits exactly the decoded remaining records, in buffer order, and parks the
cursor at the buffer length. -/
theorem emitAll_run (cols : List String) (hc : ∀ c ∈ cols, c ∈ supportedCols) :
    ∀ (n : Nat) (s : ExampleFdw), s.src_idx ≤ s.src_rows.length →
      s.src_rows.length - s.src_idx < n →
      emitAll cols s n =
        ((s.src_rows.drop s.src_idx).map (fun r => cols.map (decodeCell r)),
          { s with src_idx := s.src_rows.length }) := by
  intro n
  induction n with
  | zero => intro s _ hn; omega
  | succ n ih =>
    intro s hle hlt
    by_cases hend : s.src_rows.length ≤ s.src_idx
    · have heq : s.src_idx = s.src_rows.length := le_antisymm hle hend
      simp only [emitAll, iter_scan_exhausted cols hend]
      rw [List.drop_eq_nil_of_le hend, ← heq]
      rfl
    · push_neg at hend
      simp only [emitAll, iter_scan_emits cols hend hc]
      rw [ih { s with src_idx := s.src_idx + 1 } (by simp; omega) (by simp; omega)]
      simp only []
      rw [List.drop_eq_getElem_cons hend, getD_lt_eq_getElem _ _ hend]
      rfl

/-! ## The lifecycle as a transition system -/

/-- One lifecycle call after init, as a relation on adapter states.
re_scan always fails and touches nothing, so it relates a state to
itself; a failing iter_scan also leaves the state as it was. -/
inductive Step : ExampleFdw → ExampleFdw → Prop
  | begin_scan_call (s s' : ExampleFdw) (resp : Json) :
      begin_scan s resp = .ok s' → Step s s'
  | iter_scan_call (s s' : ExampleFdw) (cols : List String)
      (res : Except String (Option Nat)) (pushed : List (Option Cell)) :
      iter_scan s cols = (res, s', pushed) → Step s s'
  | re_scan_call (s : ExampleFdw) : Step s s
  | end_scan_call (s s' : ExampleFdw) :
      end_scan s = .ok s' → Step s s'

/-- States reachable by some sequence of lifecycle calls: a successful init
(which rebuilds the instance, so it can also occur later) followed by any
lifecycle steps. -/
inductive Reachable : ExampleFdw → Prop
  | init_call (opts : List (String × String)) (s : ExampleFdw) :
      init opts = .ok s → Reachable s
  | step (s s' : ExampleFdw) : Reachable s → Step s s' → Reachable s'

/-- Lifecycle calls restricted to the standard bracketing: begin_scan is
only issued with the cursor at 0 (i.e. right after init or end_scan). -/
inductive GoodStep : ExampleFdw → ExampleFdw → Prop
  | begin_scan_call (s s' : ExampleFdw) (resp : Json) :
      s.src_idx = 0 → begin_scan s resp = .ok s' → GoodStep s s'
  | iter_scan_call (s s' : ExampleFdw) (cols : List String)
      (res : Except String (Option Nat)) (pushed : List (Option Cell)) :
      iter_scan s cols = (res, s', pushed) → GoodStep s s'
  | re_scan_call (s : ExampleFdw) : GoodStep s s
  | end_scan_call (s s' : ExampleFdw) :
      end_scan s = .ok s' → GoodStep s s'

/-- States reachable under the standard scan bracketing. -/
inductive GoodReachable : ExampleFdw → Prop
  | init_call (opts : List (String × String)) (s : ExampleFdw) :
      init opts = .ok s → GoodReachable s
  | step (s s' : ExampleFdw) : GoodReachable s → GoodStep s s' → GoodReachable s'

/-! ## C1 -/

/-- C1, counterexample: begin_scan does not reset the cursor.  From the
reachable state s₂ (cursor 1 after a completed one-row scan), a successful
begin_scan leaves the cursor at 1, refuting the claim that every successful
begin_scan resets the cursor to 0. -/
theorem begin_scan_cursor_not_reset_cex :
    ∃ (s s' : ExampleFdw) (resp : Json),
      begin_scan s resp = .ok s' ∧ s'.src_idx ≠ 0 :=
  ⟨s₂, s₃, respEmpty, rfl, by decide⟩

/-- C1, amended: a successful begin_scan replaces the Row Buffer with the
records of the remote response products array, and leaves the cursor (and
every other field) unchanged; the cursor is 0 only because init or end_scan
set it to 0 before a well-bracketed begin_scan. -/
theorem begin_scan_populates (s s' : ExampleFdw) (resp : Json)
    (h : begin_scan s resp = .ok s') :
    ∃ arr, resp.get "products" = some (Json.arr arr) ∧
      s'.src_rows = arr ∧ s'.src_idx = s.src_idx := by
  obtain ⟨arr, hp, rfl⟩ := begin_scan_ok_state h
  exact ⟨arr, hp, rfl, rfl⟩

/-- C1, witness: begin_scan from the freshly initialized s₀ with a one
product response buffers that product. -/
theorem begin_scan_populates_witness :
    ∃ arr, respOne.get "products" = some (Json.arr arr) ∧
      s₁.src_rows = arr ∧ s₁.src_idx = s₀.src_idx :=
  begin_scan_populates s₀ s₁ respOne rfl

/-! ## C2 -/

/-- C2, counterexample: a failing iter_scan can leave already-decoded cells
in the host row.  With requested columns id then an unknown column, the
call fails but the id cell was already pushed to the host row, refuting
"fails as a whole without emitting any cell of that row to the host". -/
theorem iter_scan_partial_emission_cex :
    ∃ (s s' : ExampleFdw) (cols : List String) (e : String)
      (pushed : List (Option Cell)),
      iter_scan s cols = (.error e, s', pushed) ∧ pushed ≠ [] :=
  ⟨w2, w2, ["id", "bogus"],
    "Column \x27bogus\x27 is not supported by the WhatsApp Catalog FDW",
    [some (Cell.string "p1")], rfl, by simp⟩

/-- C2, amended: iter_scan either fully decodes the row, pushing exactly
one (possibly null) cell per requested column, or fails as a whole, never
reporting the row and leaving the adapter state unchanged; on failure the
cells decoded for the columns before the unsupported one have however
already been pushed to the host row, so strictly fewer cells than requested
columns are pushed. -/
theorem iter_scan_row_atomicity (s : ExampleFdw) (cols : List String) :
    (∀ (n : Nat) (s' : ExampleFdw) (pushed : List (Option Cell)),
        iter_scan s cols = (.ok (some n), s', pushed) →
        pushed.length = cols.length) ∧
    (∀ (e : String) (s' : ExampleFdw) (pushed : List (Option Cell)),
        iter_scan s cols = (.error e, s', pushed) →
        s' = s ∧ pushed.length < cols.length) := by
  constructor
  · intro n s' pushed h
    unfold iter_scan at h
    split at h
    · exact absurd h (by simp)
    · rcases hsc : scanCols (s.src_rows.getD s.src_idx Json.null) cols [] with ⟨p, e⟩
      rw [hsc] at h
      cases e with
      | some e2 => exact absurd h (by simp)
      | none =>
        simp only [Prod.mk.injEq] at h
        have := scanCols_none_length _ cols [] p hsc
        rw [← h.2.2]
        simpa using this
  · intro e s' pushed h
    refine ⟨iter_scan_error_state h, ?_⟩
    unfold iter_scan at h
    split at h
    · exact absurd h (by simp)
    · rcases hsc : scanCols (s.src_rows.getD s.src_idx Json.null) cols [] with ⟨p, e2⟩
      rw [hsc] at h
      cases e2 with
      | none => exact absurd h (by simp)
      | some e3 =>
        simp only [Prod.mk.injEq] at h
        have := scanCols_some_length _ cols [] p e3 hsc
        rw [← h.2.2]
        simpa using this.2

/-- C2, witness: the failing call of the counterexample state satisfies the
error half of the atomicity theorem. -/
theorem iter_scan_row_atomicity_witness :
    w2 = w2 ∧
      ([some (Cell.string "p1")] : List (Option Cell)).length <
        (["id", "bogus"] : List String).length :=
  (iter_scan_row_atomicity w2 ["id", "bogus"]).2
    "Column \x27bogus\x27 is not supported by the WhatsApp Catalog FDW" w2
    [some (Cell.string "p1")] rfl

/-! ## C3 -/

/-- C3, counterexample: a record with no images field decodes the images
column to the null cell, not to an empty-string cell as the claim states
for the absent case. -/
theorem images_absent_null_cex :
    decodeColumn (Json.obj []) "images" = Except.ok none ∧
      (Except.ok (none : Option Cell) : Except String (Option Cell)) ≠
        Except.ok (some (Cell.string "")) :=
  ⟨rfl, by simp⟩

/-- C3, amended: a record whose images field is an array of two url
sub-objects decodes the images column to the joined string; a present but
empty images array decodes to an empty-string cell; an absent images field
decodes to the null cell (as does a non-array one). -/
theorem images_decoding (r : Json) (a b : String) :
    (r.get "images" =
        some (Json.arr [Json.obj [("url", Json.str a)], Json.obj [("url", Json.str b)]]) →
      decodeColumn r "images" = .ok (some (Cell.string (a ++ ", " ++ b)))) ∧
    (r.get "images" = some (Json.arr []) →
      decodeColumn r "images" = .ok (some (Cell.string ""))) ∧
    (r.get "images" = none → decodeColumn r "images" = .ok none) := by
  refine ⟨fun h => ?_, fun h => ?_, fun h => ?_⟩ <;>
    · show Except.ok (imagesCell r) = _
      unfold imagesCell
      rw [h]
      rfl

/-- C3, witness: the two-image record decodes to the string a, b. -/
theorem images_decoding_witness :
    decodeColumn recImgs "images" = Except.ok (some (Cell.string "a, b")) :=
  (images_decoding recImgs "a" "b").1 rfl

/-! ## C4 -/

/-- C4, counterexample: the cursor can exceed the buffer length in a
reachable state.  Lifecycle trace: init; begin_scan buffering one record;
iter_scan (cursor to 1); begin_scan again with an empty products array —
begin_scan does not reset the cursor, so the state has cursor 1 over an
empty buffer, violating cursor less-or-equal length. -/
theorem cursor_invariant_cex :
    ∃ s : ExampleFdw, Reachable s ∧ s.src_rows.length < s.src_idx := by
  refine ⟨s₃, ?_, by decide⟩
  have h0 : Reachable s₀ := Reachable.init_call opts₀ s₀ rfl
  have h1 : Reachable s₁ :=
    Reachable.step s₀ s₁ h0 (Step.begin_scan_call s₀ s₁ respOne rfl)
  have h2 : Reachable s₂ :=
    Reachable.step s₁ s₂ h1
      (Step.iter_scan_call s₁ s₂ ["id"] (.ok (some 0)) [none] rfl)
  exact Reachable.step s₂ s₃ h2 (Step.begin_scan_call s₂ s₃ respEmpty rfl)

/-- C4, amended: the invariant cursor less-or-equal buffer length holds in
every state reachable when begin_scan is only invoked with the cursor at 0
(the standard lifecycle: scans bracketed by init or end_scan); the lower
bound 0 less-or-equal cursor is inherent to the representation.  Cursor
equal to length signals exhaustion: any iter_scan then reports no more
rows and changes nothing.  An out-of-lifecycle begin_scan can break the
upper bound, since begin_scan does not reset the cursor. -/
theorem cursor_invariant (s : ExampleFdw) (h : GoodReachable s) :
    s.src_idx ≤ s.src_rows.length ∧
      (∀ cols, s.src_rows.length ≤ s.src_idx →
        iter_scan s cols = (.ok none, s, [])) := by
  refine ⟨?_, fun cols hex => iter_scan_exhausted cols hex⟩
  induction h with
  | init_call opts s hinit =>
    obtain ⟨h1, h2⟩ := init_ok_state hinit
    simp [h1, h2]
  | step s s' hr hstep ih =>
    cases hstep with
    | begin_scan_call _ resp h0 hbs =>
      obtain ⟨arr, hp, rfl⟩ := begin_scan_ok_state hbs
      simp [h0]
    | iter_scan_call _ cols res pushed hit =>
      rcases iter_scan_state s cols with heq | ⟨heq, hlt⟩
      · rw [hit] at heq
        rw [show s' = s from heq]
        exact ih
      · rw [hit] at heq
        rw [show s' = { s with src_idx := s.src_idx + 1 } from heq]
        simpa using hlt
    | re_scan_call => exact ih
    | end_scan_call _ hes =>
      injection hes with h2
      rw [← h2]
      simp

/-- C4, witness: the freshly initialized state is reachable under the
standard bracketing and satisfies the cursor bound. -/
theorem cursor_invariant_witness : s₀.src_idx ≤ s₀.src_rows.length :=
  (cursor_invariant s₀ (GoodReachable.init_call opts₀ s₀ rfl)).1

/-! ## C5 -/

/-- C5, counterexample: begin_scan does not reset the cursor, so after a
successful begin_scan issued mid-scan (cursor already 1) over a one-record
products array, the driver loop emits zero rows instead of exactly one. -/
theorem scan_emission_count_cex :
    ∃ (s s' : ExampleFdw) (resp : Json),
      begin_scan s resp = .ok s' ∧ s'.src_rows.length = 1 ∧
        (emitAll ["id"] s' 2).1 = [] :=
  ⟨s₂, s₄, respP1, rfl, rfl, rfl⟩

/-- C5, amended: after a successful begin_scan from a state with cursor 0
(as in the standard lifecycle), driving iter_scan with only supported
columns emits the decoded rows in exactly the buffer (= remote array)
order, exactly length-of-buffer many times, leaves the cursor at the
buffer length, and from there any further iter_scan reports no more rows
without error and without changing the state. -/
theorem scan_emission_order (s : ExampleFdw) (cols : List String) (n : Nat)
    (h0 : s.src_idx = 0) (hc : ∀ c ∈ cols, c ∈ supportedCols)
    (hn : s.src_rows.length < n) :
    (emitAll cols s n).1 = s.src_rows.map (fun r => cols.map (decodeCell r)) ∧
      (emitAll cols s n).2 = { s with src_idx := s.src_rows.length } ∧
      iter_scan { s with src_idx := s.src_rows.length } cols =
        (.ok none, { s with src_idx := s.src_rows.length }, []) := by
  have h := emitAll_run cols hc n s (by omega) (by omega)
  refine ⟨?_, ?_, ?_⟩
  · rw [h, h0]
    simp
  · rw [h]
  · exact iter_scan_exhausted cols (by simp)

/-- C5, witness: a one-record scan with the id column emits exactly that
row and then reports exhaustion. -/
theorem scan_emission_order_witness :
    (emitAll ["id"] w2 2).1 = [[some (Cell.string "p1")]] ∧
      (emitAll ["id"] w2 2).2 = { w2 with src_idx := 1 } ∧
      iter_scan { w2 with src_idx := 1 } ["id"] =
        (.ok none, { w2 with src_idx := 1 }, []) :=
  scan_emission_order w2 ["id"] 2 rfl (by decide) (by decide)

/-! ## C6 -/

/-- C6: when the three required options are all non-empty (an absent option
falls back to the empty string, so absence and emptiness coincide), init
succeeds with exactly those options recorded over an empty buffer; when any
of the three is empty or absent, init fails with an error naming a required
key whose value is indeed missing. -/
theorem init_validates_options (opts : List (String × String)) :
    ((require_or opts "phone_number" "" ≠ "" ∧ require_or opts "from_number" "" ≠ "" ∧
        require_or opts "api_key" "" ≠ "") →
      init opts = .ok
        { base_url := "https://api.p.2chat.io/open/whatsapp/catalog/products"
          phone_number := require_or opts "phone_number" ""
          from_number := require_or opts "from_number" ""
          api_key := require_or opts "api_key" ""
          src_rows := []
          src_idx := 0 }) ∧
    ((require_or opts "phone_number" "" = "" ∨ require_or opts "from_number" "" = "" ∨
        require_or opts "api_key" "" = "") →
      ∃ key, (key = "phone_number" ∨ key = "from_number" ∨ key = "api_key") ∧
        require_or opts key "" = "" ∧
        init opts = .error ("Missing required option: " ++ key)) := by
  constructor
  · rintro ⟨h1, h2, h3⟩
    simp [init, h1, h2, h3]
  · intro h
    by_cases h1 : require_or opts "phone_number" "" = ""
    · exact ⟨"phone_number", Or.inl rfl, h1, by simp [init, h1]⟩
    · by_cases h2 : require_or opts "from_number" "" = ""
      · exact ⟨"from_number", Or.inr (Or.inl rfl), h2, by simp [init, h1, h2]⟩
      · have h3 : require_or opts "api_key" "" = "" := by tauto
        exact ⟨"api_key", Or.inr (Or.inr rfl), h3, by simp [init, h1, h2, h3]⟩

/-- C6, witness: init succeeds on a complete option list. -/
theorem init_validates_options_witness : init opts₀ = Except.ok s₀ :=
  (init_validates_options opts₀).1 (by decide)

/-! ## C7 -/

/-- C7: a requested column outside the supported set makes the decoder
fail with the unsupported-column error naming that column, whatever the
record contains. -/
theorem unsupported_column_rejected (r : Json) (c : String)
    (h : c ∉ supportedCols) :
    decodeColumn r c =
      .error ("Column \x27" ++ c ++ "\x27 is not supported by the WhatsApp Catalog FDW") := by
  unfold decodeColumn
  split
  all_goals first
    | rfl
    | exact absurd (by decide) h

/-- C7, witness: the column bogus is rejected by name. -/
theorem unsupported_column_rejected_witness :
    decodeColumn (Json.obj []) "bogus" =
      Except.error "Column \x27bogus\x27 is not supported by the WhatsApp Catalog FDW" :=
  unsupported_column_rejected (Json.obj []) "bogus" (by decide)

/-! ## C8 -/

/-- C8: decoding any supported column of any record is total and
deterministic: it always returns Ok with either a typed cell or the null
cell; an absent field, or a field whose value has the wrong type (e.g. a
JSON null where a string, boolean, integer or array is expected), yields
the null cell instead of an error. -/
theorem supported_decode_total (r : Json) (c : String) (h : c ∈ supportedCols) :
    (∃ cell, decodeColumn r c = .ok cell) ∧
      (r.get c = none → decodeColumn r c = .ok none) ∧
      (r.get c = some Json.null → decodeColumn r c = .ok none) := by
  simp only [supportedCols, List.mem_cons, List.not_mem_nil, or_false] at h
  rcases h with rfl | rfl | rfl | rfl | rfl | rfl | rfl | rfl | rfl | rfl | rfl | rfl |
    rfl | rfl | rfl | rfl
  all_goals
    refine ⟨⟨_, rfl⟩, fun hg => ?_, fun hg => ?_⟩ <;>
      simp [decodeColumn, strCell, boolCell, i64Cell, imagesCell, hg,
        Json.as_str, Json.as_bool, Json.as_i64, Json.as_array]

/-- C8, witness: the integer column decodes (to the null cell) on a record
that lacks it. -/
theorem supported_decode_total_witness :
    ∃ cell, decodeColumn (Json.obj []) "max_available" = Except.ok cell :=
  (supported_decode_total (Json.obj []) "max_available" (by decide)).1

/-! ## C9 -/

/-- C9: from any state, end_scan succeeds, empties the Row Buffer and
resets the cursor to 0; a second end_scan from the resulting state succeeds
and returns it unchanged, so end_scan is idempotent. -/
theorem end_scan_resets_idempotent (s : ExampleFdw) :
    end_scan s = .ok { s with src_rows := [], src_idx := 0 } ∧
      end_scan { s with src_rows := [], src_idx := 0 } =
        .ok { s with src_rows := [], src_idx := 0 } :=
  ⟨rfl, rfl⟩

/-! ## C10 -/

/-- C10: when the cursor is strictly inside the buffer and iter_scan fails
(the only in-row failure is an unsupported requested column), the cursor
and the Row Buffer are left exactly as they were, so the same record is at
the cursor for the next call. -/
theorem iter_scan_error_preserves (s : ExampleFdw) (cols : List String)
    (e : String) (s' : ExampleFdw) (pushed : List (Option Cell))
    (_hlt : s.src_idx < s.src_rows.length)
    (h : iter_scan s cols = (.error e, s', pushed)) :
    s' = s ∧ s'.src_rows = s.src_rows ∧ s'.src_idx = s.src_idx := by
  have heq := iter_scan_error_state h
  exact ⟨heq, by rw [heq], by rw [heq]⟩

/-- C10, witness: the failing call on the one-record state keeps the state. -/
theorem iter_scan_error_preserves_witness :
    w2 = w2 ∧ w2.src_rows = w2.src_rows ∧ w2.src_idx = w2.src_idx :=
  iter_scan_error_preserves w2 ["bogus"]
    "Column \x27bogus\x27 is not supported by the WhatsApp Catalog FDW" w2 []
    (by decide) rfl

end WhatsAppFdw
